import Mathlib

/-!
Verification of the side-quest-backend facade (src/server.js).

The server is request/response glue around three external collaborators:
a managed record store (the cards table), a managed object store (the
side-quest-images bucket) and a hosted text-generation endpoint.  Each
HTTP handler is embedded as a pure Lean function from the parsed request
plus oracles for the external calls (which may throw or return values)
to the response together with a trace of the external calls it made.
Definitions follow src/server.js line by line; the external collaborators
themselves are modelled from the spec, as the spec excludes their
internals.
-/

namespace SideQuest

/-- A stored card row from the cards table.  Timestamps are modelled as
naturals: the code compares ISO-8601 strings, whose lexicographic order
agrees with chronological order.  The product_image_urls column may be
null in a stored row — the handlers guard it with optional chaining
(card.product_image_urls?.) — so it is modelled as an optional list. -/
structure Card where
  id : Nat
  business_name : String
  employee_name : String
  webpage_url : Option String
  description : String
  cover_image_url : Option String
  product_image_urls : Option (List String)
  created_at : Nat
  expires_at : Nat
deriving Repr, DecidableEq

/-- The row the POST /cards handler passes to the insert call
(src/server.js lines 143-150): id and the timestamps are assigned by the
record store, so they are absent here. -/
structure InsertRow where
  business_name : String
  employee_name : String
  webpage_url : Option String
  description : String
  cover_image_url : Option String
  product_image_urls : List String
deriving Repr, DecidableEq

/-- An uploaded file as multer presents it to the fileFilter and the
handler: only the mimetype and the byte size matter to the logic being
verified (the buffer contents are passed through opaquely). -/
structure UpFile where
  mimetype : String
  size : Nat
deriving Repr, DecidableEq

/-- Response bodies the handlers produce, one constructor per JSON shape:
errorMsg m is the object with an error field m, successFlag is
success true, successDeleted n is success true with deleted n,
polishedBody t carries the polished text, and cardRow is the 201 body. -/
inductive Body where
  | errorMsg (msg : String)
  | successFlag
  | successDeleted (n : Nat)
  | polishedBody (text : String)
  | cardRow (c : Card)
deriving Repr, DecidableEq

/-- An HTTP response: numeric status plus body. -/
structure Resp where
  status : Nat
  body : Body
deriving Repr, DecidableEq

/-! ### urlToStoragePath (src/server.js lines 258-263)

The JS function computes url.indexOf(marker) and, when the marker occurs,
returns url.substring(idx + marker.length) — the suffix after the first
(leftmost) occurrence — and otherwise returns url unchanged. -/

/-- The fixed marker segment of src/server.js line 260. -/
def marker : String := "/side-quest-images/"

/-- Suffix after the first (leftmost) occurrence of the marker in a
character list, or none when the marker does not occur.  This is exactly
indexOf followed by substring(idx + marker.length): the scan walks left
to right and stops at the first position where the marker is a prefix of
the remaining characters. -/
def dropThroughMarker : List Char → Option (List Char)
  | [] => none
  | c :: cs =>
    if marker.data <+: (c :: cs) then some ((c :: cs).drop marker.data.length)
    else dropThroughMarker cs

/-- src/server.js lines 258-263. -/
def urlToStoragePath (url : String) : String :=
  match dropThroughMarker url.data with
  | some suf => String.mk suf
  | none => url

/-- The fixed part of a public object URL before the bucket segment, per
the comment on src/server.js line 259. -/
def publicUrlBase (project : String) : String :=
  "https://" ++ project ++ ".supabase.co/storage/v1/object/public"

/-- Modelled from the spec: the object store's getPublicUrl step
(src/server.js lines 250-252) is external; per the code comment on line
259 public URLs look like
https://project.supabase.co/storage/v1/object/public/side-quest-images/filename,
which is publicUrlBase followed by the marker followed by the filename. -/
def buildPublicUrl (project filename : String) : String :=
  publicUrlBase project ++ marker ++ filename

/-- No occurrence of the marker starts inside P, even one that would
continue into a copy of the marker appended after P. -/
def noEarlyMarker (P : List Char) : Prop :=
  ∀ i < P.length, ¬ marker.data <+: (P.drop i ++ marker.data)

instance (P : List Char) : Decidable (noEarlyMarker P) := by
  unfold noEarlyMarker; infer_instance

/-- The marker occurs nowhere in the list. -/
def markerFree (l : List Char) : Prop :=
  ∀ i < l.length, ¬ marker.data <+: l.drop i

instance (l : List Char) : Decidable (markerFree l) := by
  unfold markerFree; infer_instance

/-! ### JS string primitives

The JS methods toLowerCase and trim are modelled character-wise (core's
String.toLower and String.trim compute the same strings but through
byte-position code that the kernel cannot evaluate).  The whitespace set
is Char.isWhitespace — it covers the characters these handlers meet. -/

/-- The toLowerCase step of src/server.js line 22. -/
def lowerString (s : String) : String := String.mk (s.data.map Char.toLower)

/-- Leading and trailing whitespace removed from a character list. -/
def trimChars (l : List Char) : List Char :=
  ((l.dropWhile Char.isWhitespace).reverse.dropWhile Char.isWhitespace).reverse

/-- The trim calls of src/server.js lines 52 and 85. -/
def jsTrim (s : String) : String := String.mk (trimChars s.data)

/-! ### Multer configuration (src/server.js lines 17-28 and 113-116) -/

/-- src/server.js line 21: the allow-list inside the multer fileFilter. -/
def allowedMimeTypes : List String := ["image/jpeg", "image/jpg", "image/png"]

/-- src/server.js lines 20-27: the fileFilter accepts a file iff its
mimetype, lowercased, is in the allow-list. -/
def fileFilterAccepts (mimetype : String) : Bool :=
  allowedMimeTypes.contains (lowerString mimetype)

/-- src/server.js line 19: limits.fileSize, ten mebibytes. -/
def fileSizeLimit : Nat := 10 * 1024 * 1024

/-- src/server.js line 115: maxCount for the productImages field. -/
def productImagesMaxCount : Nat := 10

/-- Modelled from the spec: multer itself is an external library; per the
spec, a file failing the fileFilter or exceeding limits.fileSize is
rejected in middleware, before the route handler (and hence before any
storage upload) runs. -/
def multerAcceptsFile (f : UpFile) : Bool :=
  fileFilterAccepts f.mimetype && decide (f.size ≤ fileSizeLimit)

/-! ### POST /polish (src/server.js lines 48-93) -/

/-- Outcome of the upstream text-generation call: the awaited fetch can
reject (thrown), or resolve to a response with an ok flag; when ok, the
JSON body yields the model text at choices[0].message.content. -/
inductive UpstreamOutcome where
  | thrown (e : String)
  | response (ok : Bool) (content : String)
deriving Repr, DecidableEq

/-- JS falsiness of an optional string value: undefined and the empty
string are falsy, every other string is truthy. -/
def strFalsy : Option String → Bool
  | none => true
  | some s => s == ""

/-- src/server.js lines 48-93 (POST /polish).  Takes the description
field of the JSON body (none when absent), the GROQ_API_KEY environment
value (tested with JS falsiness on line 56, so an unset variable and the
empty string both count as unconfigured), and an oracle for the upstream
fetch.  The validation on line 52 is JS falsiness of description or of
description.trim().  Returns the response together with whether the
upstream call was made. -/
def polishHandler (description : Option String) (apiKey : Option String)
    (upstream : UpstreamOutcome) : Resp × Bool :=
  if strFalsy description || jsTrim (description.getD "") == "" then
    (⟨400, Body.errorMsg "Description is required"⟩, false)
  else if strFalsy apiKey then
    (⟨500, Body.errorMsg "AI service not configured"⟩, false)
  else
    match upstream with
    | UpstreamOutcome.thrown _ =>
        (⟨500, Body.errorMsg "Failed to polish description"⟩, true)
    | UpstreamOutcome.response ok content =>
        if ok then (⟨200, Body.polishedBody (jsTrim content)⟩, true)
        else (⟨500, Body.errorMsg "Failed to polish description"⟩, true)

/-! ### GET /cards (src/server.js lines 96-110) -/

/-- Insertion into a list kept in descending created_at order. -/
def insertDesc (c : Card) : List Card → List Card
  | [] => [c]
  | d :: ds =>
    if d.created_at ≤ c.created_at then c :: d :: ds else d :: insertDesc c ds

/-- Sorting by created_at descending, modelling the order step of the
GET /cards query. -/
def sortByCreatedDesc : List Card → List Card
  | [] => []
  | c :: cs => insertDesc c (sortByCreatedDesc cs)

/-- Descending created_at order between adjacent result cards. -/
def descBy (a b : Card) : Prop := b.created_at ≤ a.created_at

/-- Modelled from the spec: the record store's query semantics are
external; the GET /cards query (src/server.js lines 98-102) selects the
rows with expires_at strictly greater than now and orders them by
created_at descending. -/
def listActiveQuery (db : List Card) (now : Nat) : List Card :=
  sortByCreatedDesc (db.filter (fun c => now < c.expires_at))

/-- src/server.js lines 96-110 (GET /cards): a query error is thrown and
answered with 500 and no rows; otherwise the handler returns the rows of
the query exactly as the store produced them. -/
def getCardsHandler (db : List Card) (now : Nat) (queryFails : Bool) :
    Nat × List Card :=
  if queryFails then (500, []) else (200, listActiveQuery db now)

/-! ### POST /cards (src/server.js lines 113-161) -/

/-- The parsed multipart POST /cards request: the text fields (none when
a field is absent from the form) and the files as multer grouped them. -/
structure SubmitRequest where
  businessName : Option String
  employeeName : Option String
  webpageUrl : Option String
  description : Option String
  coverImage : Option UpFile
  productImages : List UpFile
deriving Repr, DecidableEq

/-- Sequential upload of a list of files starting at call index k,
modelling the loop of src/server.js lines 133-138: each upload is
awaited, and the first throw aborts the loop (uploadImage itself throws
when the store returns an error, line 248, so a failed upload surfaces as
a throw).  The upload oracle is indexed by the position of the call
within the request.  Returns the collected URLs in order, or the first
thrown error, together with the number of upload calls made. -/
def uploadAll (up : Nat → Except String String) (k : Nat) :
    List UpFile → Except String (List String) × Nat
  | [] => (Except.ok [], 0)
  | _ :: fs =>
    match up k with
    | Except.error e => (Except.error e, 1)
    | Except.ok url =>
      match uploadAll up (k + 1) fs with
      | (Except.error e, n) => (Except.error e, n + 1)
      | (Except.ok urls, n) => (Except.ok (url :: urls), n + 1)

/-- Continuation of the POST /cards handler after the cover-image step
(src/server.js lines 131-155): upload the product images in order, then
build the row and insert it.  coverUrl is the cover's public URL (none
when no cover file was sent) and k the number of upload calls already
made.  The row mirrors lines 143-150: in particular webpage_url is
webpageUrl coerced by JS falsiness to null, and the three required
fields are written exactly as submitted (validation has already ensured
they are present, so the getD default is never read on a reachable
path).  insertRes is the record store's answer to the insert; an error
is thrown on line 154 and answered with 500 from the catch block. -/
def submitAfterCover (req : SubmitRequest) (up : Nat → Except String String)
    (insertRes : Except String Card) (coverUrl : Option String) (k : Nat) :
    Resp × Nat × List InsertRow :=
  match uploadAll up k req.productImages with
  | (Except.error e, n) => (⟨500, Body.errorMsg e⟩, k + n, [])
  | (Except.ok urls, n) =>
    let row : InsertRow :=
      { business_name := req.businessName.getD ""
        employee_name := req.employeeName.getD ""
        webpage_url :=
          match req.webpageUrl with
          | none => none
          | some s => if s = "" then none else some s
        description := req.description.getD ""
        cover_image_url := coverUrl
        product_image_urls := urls }
    match insertRes with
    | Except.error e => (⟨500, Body.errorMsg e⟩, k + n, [row])
    | Except.ok card => (⟨201, Body.cardRow card⟩, k + n, [row])

/-- src/server.js lines 113-161 (POST /cards).  The validation mirrors
line 121 exactly: JS falsiness of the three required text fields — no
trimming is applied there.  The result carries the response, the number
of storage upload calls made, and the list of insert calls made. -/
def submitHandler (req : SubmitRequest) (up : Nat → Except String String)
    (insertRes : Except String Card) : Resp × Nat × List InsertRow :=
  if strFalsy req.businessName || strFalsy req.employeeName ||
      strFalsy req.description then
    (⟨400, Body.errorMsg "businessName, employeeName, and description are required"⟩,
      0, [])
  else
    match req.coverImage with
    | some _ =>
      match up 0 with
      | Except.error e => (⟨500, Body.errorMsg e⟩, 1, [])
      | Except.ok coverUrl => submitAfterCover req up insertRes (some coverUrl) 1
    | none => submitAfterCover req up insertRes none 0

/-- What reached the route handler: either the multer middleware rejected
the request first, or the handler ran and produced a response. -/
inductive RouteOutcome where
  | middlewareRejected
  | handled (r : Resp)
deriving Repr, DecidableEq

/-- Modelled from the spec: the POST /cards pipeline — multer runs before
the route handler (src/server.js lines 113-116), and a request whose
productImages field exceeds maxCount, or any of whose files fails the
fileFilter or the size limit, is rejected by the middleware, so the
handler (and hence any storage upload or record insert) never runs. -/
def cardsRoute (req : SubmitRequest) (up : Nat → Except String String)
    (insertRes : Except String Card) : RouteOutcome × Nat × List InsertRow :=
  if req.productImages.length > productImagesMaxCount ∨
      ¬ ((req.coverImage.toList ++ req.productImages).all multerAcceptsFile = true) then
    (RouteOutcome.middlewareRejected, 0, [])
  else
    let r := submitHandler req up insertRes
    (RouteOutcome.handled r.1, r.2.1, r.2.2)

/-! ### DELETE /cards/:id (src/server.js lines 164-202) -/

/-- Result of the card fetch at src/server.js lines 169-173: the awaited
query either reports an error (which the handler throws on line 175) or
yields the row, possibly null. -/
inductive FetchOutcome where
  | fetchError (e : String)
  | fetched (card : Option Card)
deriving Repr, DecidableEq

/-- Outcome of an awaited external call whose promise can reject: it is
either thrown, or it resolves, returning a possibly-error value. -/
inductive CallOutcome where
  | thrown (e : String)
  | returned (err : Option String)
deriving Repr, DecidableEq

/-- Whether the awaited call resolved rather than threw. -/
def CallOutcome.notThrown : CallOutcome → Bool
  | CallOutcome.thrown _ => false
  | CallOutcome.returned _ => true

/-- The storage paths derived from a card's image URLs, in the order the
two delete handlers build imagesToDelete (src/server.js lines 179-183 and
217-219): the cover first — pushed only when cover_image_url is truthy,
so a null or empty value is skipped — then every product image URL in
order (product_image_urls may be null, guarded by optional chaining). -/
def cardImagePaths (card : Card) : List String :=
  (match card.cover_image_url with
    | some u => if u = "" then [] else [urlToStoragePath u]
    | none => []) ++
  (card.product_image_urls.getD []).map urlToStoragePath

/-- The row-delete step of DELETE /cards/:id (src/server.js lines
190-196): the delete call is always made at this point; a thrown promise
or a returned error value (thrown by the handler on line 195) leads to
the catch block's 500, otherwise the handler answers success.  calls is
the list of storage remove calls already made. -/
def deleteRowStep (calls : List (List String)) (dbRes : CallOutcome) :
    Resp × List (List String) × Nat :=
  match dbRes with
  | CallOutcome.thrown _ => (⟨500, Body.errorMsg "Failed to delete card"⟩, calls, 1)
  | CallOutcome.returned (some _) =>
      (⟨500, Body.errorMsg "Failed to delete card"⟩, calls, 1)
  | CallOutcome.returned none => (⟨200, Body.successFlag⟩, calls, 1)

/-- src/server.js lines 164-202 (DELETE /cards/:id).  fetch is the result
of the initial card query; removeRes is the outcome of the batch storage
remove call, whose returned value the code ignores — only a throw matters
(line 186); dbRes is the outcome of the row delete.  The result carries
the response, the list of storage remove calls made (each with its full
path list), and the number of row delete calls made. -/
def deleteOneHandler (fetch : FetchOutcome) (removeRes : CallOutcome)
    (dbRes : CallOutcome) : Resp × List (List String) × Nat :=
  match fetch with
  | FetchOutcome.fetchError _ =>
      (⟨500, Body.errorMsg "Failed to delete card"⟩, [], 0)
  | FetchOutcome.fetched none =>
      (⟨404, Body.errorMsg "Card not found"⟩, [], 0)
  | FetchOutcome.fetched (some card) =>
    let paths := cardImagePaths card
    if paths.length > 0 then
      match removeRes with
      | CallOutcome.thrown _ =>
          (⟨500, Body.errorMsg "Failed to delete card"⟩, [paths], 0)
      | CallOutcome.returned _ => deleteRowStep [paths] dbRes
    else deleteRowStep [] dbRes

/-- Modelled from the spec: the record store's getById — the fetch query
of src/server.js lines 169-173 yields the row whose id matches, or null
when no such row exists. -/
def getById (db : List Card) (id : Nat) : Option Card :=
  db.find? (fun c => c.id == id)

/-! ### DELETE /cards/cleanup/expired (src/server.js lines 205-232) -/

/-- Modelled from the spec: the listExpired query of src/server.js lines
208-211 selects the rows with expires_at strictly less than now,
unordered — the store's row order is preserved here. -/
def listExpired (db : List Card) (now : Nat) : List Card :=
  db.filter (fun c => c.expires_at < now)

/-- One external call of the cleanup loop, for the trace. -/
inductive CleanupEv where
  | removeCall (cardId : Nat) (paths : List String)
  | rowDeleteCall (cardId : Nat)
deriving Repr, DecidableEq

/-- The cleanup loop of src/server.js lines 215-225, processing the
fetched cards strictly in list order; i indexes the current card for the
oracles.  The storage remove is issued only when the card has image
paths, and its returned value is ignored (line 221); the row delete's
returned value is ignored as well (line 223 does not even destructure
it); only a thrown promise aborts the loop, to be answered 500 by the
catch block.  deletedCount is incremented once per fully processed card,
so on normal completion the counter equals the number of cards. -/
def cleanupLoop (removeO rowO : Nat → CallOutcome) :
    Nat → List Card → Except String Nat × List CleanupEv
  | _, [] => (Except.ok 0, [])
  | i, card :: rest =>
    let paths := cardImagePaths card
    let removeEvs : List CleanupEv :=
      if paths.length > 0 then [CleanupEv.removeCall card.id paths] else []
    let removeThrew : Option String :=
      if paths.length > 0 then
        match removeO i with
        | CallOutcome.thrown e => some e
        | CallOutcome.returned _ => none
      else none
    match removeThrew with
    | some e => (Except.error e, removeEvs)
    | none =>
      match rowO i with
      | CallOutcome.thrown e =>
          (Except.error e, removeEvs ++ [CleanupEv.rowDeleteCall card.id])
      | CallOutcome.returned _ =>
        match cleanupLoop removeO rowO (i + 1) rest with
        | (Except.error e, evs) =>
            (Except.error e, removeEvs ++ [CleanupEv.rowDeleteCall card.id] ++ evs)
        | (Except.ok n, evs) =>
            (Except.ok (n + 1), removeEvs ++ [CleanupEv.rowDeleteCall card.id] ++ evs)

/-- src/server.js lines 205-232 (DELETE /cards/cleanup/expired).
fetchRes is the outcome of the expired-cards query (line 213 throws its
error); on success the loop runs over the returned rows. -/
def cleanupHandler (fetchRes : Except String (List Card))
    (removeO rowO : Nat → CallOutcome) : Resp × List CleanupEv :=
  match fetchRes with
  | Except.error _ => (⟨500, Body.errorMsg "Cleanup failed"⟩, [])
  | Except.ok expired =>
    match cleanupLoop removeO rowO 0 expired with
    | (Except.ok n, evs) => (⟨200, Body.successDeleted n⟩, evs)
    | (Except.error _, evs) => (⟨500, Body.errorMsg "Cleanup failed"⟩, evs)

/-- The call trace the cleanup loop produces on a normal run: card by
card, in list order, the batch remove call when the card has image paths
followed by its row delete call. -/
def cleanupTrace (expired : List Card) : List CleanupEv :=
  expired.flatMap (fun card =>
    (if (cardImagePaths card).length > 0
      then [CleanupEv.removeCall card.id (cardImagePaths card)] else []) ++
    [CleanupEv.rowDeleteCall card.id])

/-! ## Lemmas on the marker scan -/

lemma prefix_of_append_of_length_le {p a : List Char} (rest : List Char)
    (h : p.length ≤ a.length) (hp : p <+: a ++ rest) : p <+: a := by
  rw [List.prefix_iff_eq_take] at hp ⊢
  rw [List.take_append_eq_append_take, Nat.sub_eq_zero_of_le h] at hp
  simpa using hp

lemma dropThroughMarker_append_left (P rest : List Char)
    (h : ∀ i < P.length, ¬ marker.data <+: (P.drop i ++ rest)) :
    dropThroughMarker (P ++ rest) = dropThroughMarker rest := by
  induction P with
  | nil => simp
  | cons c cs ih =>
    have h0 : ¬ marker.data <+: (c :: (cs ++ rest)) := by
      have := h 0 (Nat.succ_pos _)
      simpa using this
    rw [List.cons_append]
    simp only [dropThroughMarker]
    rw [if_neg h0]
    exact ih (fun i hi => by simpa using h (i + 1) (Nat.succ_lt_succ hi))

lemma dropThroughMarker_marker_append (suf : List Char) :
    dropThroughMarker (marker.data ++ suf) = some suf := by
  have hmn : marker.data ≠ [] := by decide
  have hne : marker.data ++ suf ≠ [] := fun h => hmn (List.append_eq_nil.mp h).1
  rcases hl : marker.data ++ suf with _ | ⟨c, l⟩
  · exact absurd hl hne
  · have hpre : marker.data <+: c :: l := hl ▸ List.prefix_append marker.data suf
    simp only [dropThroughMarker]
    rw [if_pos hpre, ← hl, List.drop_left]

lemma dropThroughMarker_split (P suf : List Char) (h : noEarlyMarker P) :
    dropThroughMarker (P ++ (marker.data ++ suf)) = some suf := by
  rw [dropThroughMarker_append_left P (marker.data ++ suf) ?_]
  · exact dropThroughMarker_marker_append suf
  · intro i hi hcon
    apply h i hi
    apply prefix_of_append_of_length_le suf (by simp)
    rw [← List.append_assoc] at hcon
    exact hcon

lemma dropThroughMarker_eq_none (l : List Char) (h : markerFree l) :
    dropThroughMarker l = none := by
  induction l with
  | nil => rfl
  | cons c cs ih =>
    have h0 : ¬ marker.data <+: (c :: cs) := by
      simpa using h 0 (Nat.succ_pos _)
    simp only [dropThroughMarker]
    rw [if_neg h0]
    exact ih (fun i hi => by simpa using h (i + 1) (Nat.succ_lt_succ hi))

lemma urlToStoragePath_concat (pre suf : List Char) (h : noEarlyMarker pre) :
    urlToStoragePath (String.mk (pre ++ (marker.data ++ suf))) = String.mk suf := by
  unfold urlToStoragePath
  rw [show (String.mk (pre ++ (marker.data ++ suf))).data
        = pre ++ (marker.data ++ suf) from rfl]
  rw [dropThroughMarker_split pre suf h]

lemma urlToStoragePath_of_markerFree (url : String) (h : markerFree url.data) :
    urlToStoragePath url = url := by
  unfold urlToStoragePath
  rw [dropThroughMarker_eq_none url.data h]

/-! ## C5 — urlToStoragePath -/

/-- C5 counterexample: urlToStoragePath is not idempotent.  On a string
in which the suffix after the first marker occurrence contains the
marker again, a second application strips once more, so the claimed
idempotence fails at this input. -/
theorem urlToStoragePath_not_idempotent :
    urlToStoragePath (urlToStoragePath "aa/side-quest-images/bb/side-quest-images/cc")
      ≠ urlToStoragePath "aa/side-quest-images/bb/side-quest-images/cc" := by
  decide

/-- C5 (amended): urlToStoragePath is a pure left inverse of public-URL
construction — for every filename F (and every project whose URL base
has no early marker occurrence) it maps buildPublicUrl of F back to F;
on any input it returns the suffix after the first marker occurrence
when the marker occurs, and the input unchanged when the marker is
absent; and it is idempotent on every input whose image is marker-free
(in particular on every built public URL of a marker-free filename),
though not on all strings — see the counterexample. -/
theorem urlToStoragePath_contract :
    (∀ project filename : String,
      noEarlyMarker (publicUrlBase project).data →
      urlToStoragePath (buildPublicUrl project filename) = filename) ∧
    (∀ pre suf : List Char, noEarlyMarker pre →
      urlToStoragePath (String.mk (pre ++ (marker.data ++ suf))) = String.mk suf) ∧
    (∀ url : String, markerFree url.data → urlToStoragePath url = url) ∧
    (∀ url : String, markerFree (urlToStoragePath url).data →
      urlToStoragePath (urlToStoragePath url) = urlToStoragePath url) := by
  refine ⟨?_, urlToStoragePath_concat, urlToStoragePath_of_markerFree, ?_⟩
  · intro project filename h
    have hd : (buildPublicUrl project filename).data
        = (publicUrlBase project).data ++ (marker.data ++ filename.data) := by
      simp [buildPublicUrl, String.data_append]
    unfold urlToStoragePath
    rw [hd, dropThroughMarker_split _ _ h]
  · intro url h
    exact urlToStoragePath_of_markerFree _ h

/-- C5 witness: the amended contract applied at a concrete project name,
a generated-style filename, and a concrete marker-free string. -/
theorem urlToStoragePath_contract_witness :
    urlToStoragePath (buildPublicUrl "demo" "1733333333-ab12cd.jpg")
      = "1733333333-ab12cd.jpg" ∧
    urlToStoragePath "1733333333-ab12cd.jpg" = "1733333333-ab12cd.jpg" :=
  ⟨urlToStoragePath_contract.1 "demo" "1733333333-ab12cd.jpg" (by decide),
   urlToStoragePath_contract.2.2.1 "1733333333-ab12cd.jpg" (by decide)⟩

/-! ## Lemmas on the descending sort -/

lemma mem_insertDesc (c x : Card) (l : List Card) :
    x ∈ insertDesc c l ↔ x = c ∨ x ∈ l := by
  induction l with
  | nil => simp [insertDesc]
  | cons d ds ih =>
    by_cases hd : d.created_at ≤ c.created_at
    · simp [insertDesc, hd]
    · simp only [insertDesc, if_neg hd, List.mem_cons, ih]
      tauto

lemma mem_sortByCreatedDesc (x : Card) (l : List Card) :
    x ∈ sortByCreatedDesc l ↔ x ∈ l := by
  induction l with
  | nil => simp [sortByCreatedDesc]
  | cons c cs ih => simp [sortByCreatedDesc, mem_insertDesc, ih]

lemma pairwise_insertDesc (c : Card) (l : List Card)
    (h : l.Pairwise descBy) : (insertDesc c l).Pairwise descBy := by
  induction l with
  | nil => simp [insertDesc]
  | cons d ds ih =>
    obtain ⟨hd, hds⟩ := List.pairwise_cons.mp h
    by_cases hcd : d.created_at ≤ c.created_at
    · simp only [insertDesc, if_pos hcd]
      refine List.pairwise_cons.mpr ⟨?_, h⟩
      intro y hy
      rcases List.mem_cons.mp hy with rfl | hy'
      · exact hcd
      · exact le_trans (hd y hy') hcd
    · simp only [insertDesc, if_neg hcd]
      refine List.pairwise_cons.mpr ⟨?_, ih hds⟩
      intro y hy
      rcases (mem_insertDesc c y ds).mp hy with rfl | hy'
      · exact le_of_lt (not_le.mp hcd)
      · exact hd y hy'

lemma pairwise_sortByCreatedDesc (l : List Card) :
    (sortByCreatedDesc l).Pairwise descBy := by
  induction l with
  | nil => simp [sortByCreatedDesc]
  | cons c cs ih => exact pairwise_insertDesc c _ ih

/-! ## C7 — GET /cards -/

/-- C7: GET /cards returns exactly the cards whose expires_at is
strictly in the future at query time, ordered by created_at descending;
in particular no returned card has expires_at at or before the call
time. -/
theorem listActive_contract (db : List Card) (now : Nat) :
    (∀ c, c ∈ (getCardsHandler db now false).2 ↔ c ∈ db ∧ now < c.expires_at) ∧
    ((getCardsHandler db now false).2).Pairwise descBy ∧
    (∀ c ∈ (getCardsHandler db now false).2, ¬ c.expires_at ≤ now) := by
  have hq : (getCardsHandler db now false).2 = listActiveQuery db now := rfl
  refine ⟨?_, ?_, ?_⟩
  · intro c
    rw [hq]
    unfold listActiveQuery
    rw [mem_sortByCreatedDesc, List.mem_filter]
    simp
  · rw [hq]
    exact pairwise_sortByCreatedDesc _
  · intro c hc
    rw [hq] at hc
    unfold listActiveQuery at hc
    rw [mem_sortByCreatedDesc, List.mem_filter] at hc
    have := hc.2
    simp only [decide_eq_true_eq] at this
    exact not_le.mpr this

/-- C7 witness: the contract applied at a one-card store queried before
the card's expiry. -/
theorem listActive_contract_witness :
    (⟨1, "Acme", "Jo", none, "d", none, none, 5, 10⟩ : Card) ∈
      (getCardsHandler [⟨1, "Acme", "Jo", none, "d", none, none, 5, 10⟩] 3 false).2 ∧
    ¬ (⟨1, "Acme", "Jo", none, "d", none, none, 5, 10⟩ : Card).expires_at ≤ 3 :=
  have h := listActive_contract [⟨1, "Acme", "Jo", none, "d", none, none, 5, 10⟩] 3
  have hmem := (h.1 ⟨1, "Acme", "Jo", none, "d", none, none, 5, 10⟩).mpr
    ⟨by decide, by decide⟩
  ⟨hmem, h.2.2 _ hmem⟩

/-! ## C1 — POST /cards validation -/

/-- C1 counterexample: a submission whose businessName is whitespace-only
is not rejected — the validation of src/server.js line 121 tests JS
falsiness without trimming, so the whitespace-only value is truthy, the
handler proceeds, and the record insert is performed (here answered 201
by the store oracle). -/
theorem submit_whitespace_passes_validation :
    (submitHandler
        ⟨some " ", some "Jo", none, some "Great stuff", none, []⟩
        (fun _ => Except.error "no upload")
        (Except.ok ⟨1, " ", "Jo", none, "Great stuff", none, some [], 0, 100⟩)).1.status
      = 201 ∧
    (submitHandler
        ⟨some " ", some "Jo", none, some "Great stuff", none, []⟩
        (fun _ => Except.error "no upload")
        (Except.ok ⟨1, " ", "Jo", none, "Great stuff", none, some [], 0, 100⟩)).2.2.length
      = 1 := by
  decide

/-- C1 (amended): for every card submission in which businessName,
employeeName, or description is missing or is the empty string, the
handler answers 400 with the validation message and performs zero
storage uploads and zero record inserts.  Whitespace-only values are not
rejected, since the code applies no trimming — see the counterexample. -/
theorem submit_missing_field_rejected (req : SubmitRequest)
    (up : Nat → Except String String) (insertRes : Except String Card)
    (h : req.businessName = none ∨ req.businessName = some "" ∨
         req.employeeName = none ∨ req.employeeName = some "" ∨
         req.description = none ∨ req.description = some "") :
    submitHandler req up insertRes
      = (⟨400, Body.errorMsg "businessName, employeeName, and description are required"⟩,
          0, []) := by
  have hv : (strFalsy req.businessName || strFalsy req.employeeName ||
      strFalsy req.description) = true := by
    rcases h with h | h | h | h | h | h <;> simp [strFalsy, h]
  simp [submitHandler, hv]

/-- C1 witness: the amended theorem applied at a request whose
businessName is the empty string. -/
theorem submit_missing_field_rejected_witness :
    submitHandler ⟨some "", some "Jo", none, some "Great stuff", none, []⟩
        (fun _ => Except.error "e") (Except.error "e")
      = (⟨400, Body.errorMsg "businessName, employeeName, and description are required"⟩,
          0, []) :=
  submit_missing_field_rejected _ _ _ (Or.inr (Or.inl rfl))

/-! ## C2 — DELETE /cards/:id on a nonexistent id -/

/-- C2: for every id that identifies no card in the store, the DELETE
/cards/:id handler answers 404 with error body Card not found and makes
zero storage remove calls and zero row delete calls, whatever the
outcomes of those calls would have been. -/
theorem deleteOne_nonexistent_404 (db : List Card) (id : Nat)
    (removeRes dbRes : CallOutcome) (h : ∀ c ∈ db, c.id ≠ id) :
    deleteOneHandler (FetchOutcome.fetched (getById db id)) removeRes dbRes
      = (⟨404, Body.errorMsg "Card not found"⟩, [], 0) := by
  have hnone : getById db id = none := by
    apply List.find?_eq_none.mpr
    intro c hc
    simpa using h c hc
  rw [hnone]
  rfl

/-- C2 witness: deleting id 999 from a store holding only id 1. -/
theorem deleteOne_nonexistent_404_witness :
    deleteOneHandler
        (FetchOutcome.fetched
          (getById [⟨1, "Acme", "Jo", none, "d", none, none, 0, 10⟩] 999))
        (CallOutcome.returned none) (CallOutcome.returned none)
      = (⟨404, Body.errorMsg "Card not found"⟩, [], 0) :=
  deleteOne_nonexistent_404 _ 999 _ _ (by decide)

/-! ## C3 — DELETE /cards/:id on an existing card with images -/

/-- C3: for every existing card with at least one associated image URL,
the handler issues exactly one batch storage remove call, listing all
the derived paths (cover first, then product images in order), whatever
the call outcomes; the row delete is issued exactly when the remove call
resolves rather than throws; when the remove call throws, the row delete
never happens and the error response is surfaced; and when both calls
succeed the handler answers success. -/
theorem deleteOne_batch_then_row (card : Card) (removeRes dbRes : CallOutcome)
    (h : cardImagePaths card ≠ []) :
    (deleteOneHandler (FetchOutcome.fetched (some card)) removeRes dbRes).2.1
        = [cardImagePaths card] ∧
    (removeRes.notThrown = true →
      (deleteOneHandler (FetchOutcome.fetched (some card)) removeRes dbRes).2.2 = 1) ∧
    (∀ e, removeRes = CallOutcome.thrown e →
      (deleteOneHandler (FetchOutcome.fetched (some card)) removeRes dbRes).2.2 = 0 ∧
      (deleteOneHandler (FetchOutcome.fetched (some card)) removeRes dbRes).1
        = ⟨500, Body.errorMsg "Failed to delete card"⟩) ∧
    (removeRes = CallOutcome.returned none → dbRes = CallOutcome.returned none →
      (deleteOneHandler (FetchOutcome.fetched (some card)) removeRes dbRes).1
        = ⟨200, Body.successFlag⟩) := by
  have hl : 0 < (cardImagePaths card).length := List.length_pos.mpr h
  refine ⟨?_, ?_, ?_, ?_⟩
  · rcases removeRes with e | err
    · simp [deleteOneHandler, hl]
    · rcases dbRes with e2 | err2
      · simp [deleteOneHandler, deleteRowStep, hl]
      · rcases err2 with _ | e3 <;> simp [deleteOneHandler, deleteRowStep, hl]
  · intro hnt
    rcases removeRes with e | err
    · simp [CallOutcome.notThrown] at hnt
    · rcases dbRes with e2 | err2
      · simp [deleteOneHandler, deleteRowStep, hl]
      · rcases err2 with _ | e3 <;> simp [deleteOneHandler, deleteRowStep, hl]
  · rintro e rfl
    refine ⟨?_, ?_⟩ <;> simp [deleteOneHandler, hl]
  · rintro rfl rfl
    simp [deleteOneHandler, deleteRowStep, hl]

/-- C3 witness: a card with a cover image and one product image — one
batch remove call listing both derived paths, then the row delete, then
success. -/
theorem deleteOne_batch_then_row_witness :
    (deleteOneHandler
        (FetchOutcome.fetched (some
          ⟨7, "Acme", "Jo", none, "d",
            some "https://demo.supabase.co/storage/v1/object/public/side-quest-images/a.jpg",
            some ["https://demo.supabase.co/storage/v1/object/public/side-quest-images/b.jpg"],
            0, 5⟩))
        (CallOutcome.returned none) (CallOutcome.returned none)).2.1
      = [["a.jpg", "b.jpg"]] ∧
    (deleteOneHandler
        (FetchOutcome.fetched (some
          ⟨7, "Acme", "Jo", none, "d",
            some "https://demo.supabase.co/storage/v1/object/public/side-quest-images/a.jpg",
            some ["https://demo.supabase.co/storage/v1/object/public/side-quest-images/b.jpg"],
            0, 5⟩))
        (CallOutcome.returned none) (CallOutcome.returned none)).1
      = ⟨200, Body.successFlag⟩ :=
  have h := deleteOne_batch_then_row
    ⟨7, "Acme", "Jo", none, "d",
      some "https://demo.supabase.co/storage/v1/object/public/side-quest-images/a.jpg",
      some ["https://demo.supabase.co/storage/v1/object/public/side-quest-images/b.jpg"],
      0, 5⟩
    (CallOutcome.returned none) (CallOutcome.returned none) (by decide)
  ⟨h.1.trans (by decide), h.2.2.2 rfl rfl⟩

/-! ## C4 and C9 — DELETE /cards/cleanup/expired -/

lemma cleanupLoop_all_ok (removeO rowO : Nat → CallOutcome)
    (h : ∀ i, (removeO i).notThrown = true ∧ (rowO i).notThrown = true) :
    ∀ (i : Nat) (cards : List Card),
      cleanupLoop removeO rowO i cards = (Except.ok cards.length, cleanupTrace cards) := by
  intro i cards
  induction cards generalizing i with
  | nil => simp [cleanupLoop, cleanupTrace]
  | cons card rest ih =>
    rcases hrm : removeO i with e | err
    · have hc := (h i).1
      rw [hrm] at hc
      simp [CallOutcome.notThrown] at hc
    · rcases hro : rowO i with e | err2
      · have hc := (h i).2
        rw [hro] at hc
        simp [CallOutcome.notThrown] at hc
      · simp [cleanupLoop, hrm, hro, ih (i + 1), cleanupTrace]

/-- C4: when the expired query returns its K rows and every per-card
call succeeds, the cleanup handler processes the cards strictly in the
order listExpired returned them — the call trace is, card by card in that
order, the batch remove call when the card has image paths followed by
its row delete — answers success, and reports deleted equal to K, the
counter being incremented for cards with and without images alike. -/
theorem cleanup_processes_in_order (db : List Card) (now : Nat)
    (removeO rowO : Nat → CallOutcome)
    (h : ∀ i, removeO i = CallOutcome.returned none ∧
              rowO i = CallOutcome.returned none) :
    cleanupHandler (Except.ok (listExpired db now)) removeO rowO
      = (⟨200, Body.successDeleted (listExpired db now).length⟩,
          cleanupTrace (listExpired db now)) := by
  have h' : ∀ i, (removeO i).notThrown = true ∧ (rowO i).notThrown = true := by
    intro i
    rw [(h i).1, (h i).2]
    exact ⟨rfl, rfl⟩
  have hq := cleanupLoop_all_ok removeO rowO h' 0 (listExpired db now)
  simp [cleanupHandler, hq]

/-- C4 witness: a store with three cards of which two are expired at
time 10 — the handler reports two deletions and the trace follows the
listExpired order, with the imageless card still counted. -/
theorem cleanup_processes_in_order_witness :
    cleanupHandler
        (Except.ok (listExpired
          [⟨1, "b", "e", none, "d",
             some "https://demo.supabase.co/storage/v1/object/public/side-quest-images/a.jpg",
             none, 0, 5⟩,
           ⟨2, "b2", "e2", none, "d2", none, none, 1, 50⟩,
           ⟨3, "b3", "e3", none, "d3", none, none, 2, 7⟩] 10))
        (fun _ => CallOutcome.returned none) (fun _ => CallOutcome.returned none)
      = (⟨200, Body.successDeleted 2⟩,
          [CleanupEv.removeCall 1 ["a.jpg"], CleanupEv.rowDeleteCall 1,
           CleanupEv.rowDeleteCall 3]) :=
  have h := cleanup_processes_in_order
    [⟨1, "b", "e", none, "d",
       some "https://demo.supabase.co/storage/v1/object/public/side-quest-images/a.jpg",
       none, 0, 5⟩,
     ⟨2, "b2", "e2", none, "d2", none, none, 1, 50⟩,
     ⟨3, "b3", "e3", none, "d3", none, none, 2, 7⟩] 10
    (fun _ => CallOutcome.returned none) (fun _ => CallOutcome.returned none)
    (fun _ => ⟨rfl, rfl⟩)
  h.trans (by decide)

/-- C9: the cleanup loop never inspects the returned value of the
storage remove or of the row delete — whenever every per-card call
resolves, whatever error values those calls return, the handler reports
overall success with a deleted count equal to the number of cards
iterated, not the number of rows actually removed. -/
theorem cleanup_ignores_returned_errors (expired : List Card)
    (removeO rowO : Nat → CallOutcome)
    (h : ∀ i, (removeO i).notThrown = true ∧ (rowO i).notThrown = true) :
    (cleanupHandler (Except.ok expired) removeO rowO).1
      = ⟨200, Body.successDeleted expired.length⟩ := by
  have hq := cleanupLoop_all_ok removeO rowO h 0 expired
  simp [cleanupHandler, hq]

/-- C9 witness: both per-card calls return error values for every card,
yet the handler reports success and deleted equal to 2. -/
theorem cleanup_ignores_returned_errors_witness :
    (cleanupHandler
        (Except.ok
          [⟨1, "b", "e", none, "d", none, none, 0, 5⟩,
           ⟨2, "b2", "e2", none, "d2", none, none, 1, 6⟩])
        (fun _ => CallOutcome.returned (some "storage remove failed"))
        (fun _ => CallOutcome.returned (some "row delete failed"))).1
      = ⟨200, Body.successDeleted 2⟩ :=
  cleanup_ignores_returned_errors _ _ _ (fun _ => ⟨rfl, rfl⟩)

/-! ## C6 — POST /polish -/

/-- C6: POST /polish answers 400 with error body Description is required
and makes no upstream call when the description is missing, empty, or
whitespace-only; answers 500 without an upstream call when no
text-generation credential is configured; answers 500 when the upstream
call throws or its response is not ok; and on an ok response propagates
the model text verbatim apart from trimming surrounding whitespace, with
no further validation. -/
theorem polish_contract (description apiKey : Option String)
    (upstream : UpstreamOutcome) :
    ((description = none ∨ (∃ s, description = some s ∧ jsTrim s = "")) →
      polishHandler description apiKey upstream
        = (⟨400, Body.errorMsg "Description is required"⟩, false)) ∧
    (∀ s, description = some s → jsTrim s ≠ "" →
      (apiKey = none ∨ apiKey = some "") →
      polishHandler description apiKey upstream
        = (⟨500, Body.errorMsg "AI service not configured"⟩, false)) ∧
    (∀ s k, description = some s → jsTrim s ≠ "" → apiKey = some k → k ≠ "" →
      ((∀ e, upstream = UpstreamOutcome.thrown e →
          polishHandler description apiKey upstream
            = (⟨500, Body.errorMsg "Failed to polish description"⟩, true)) ∧
       (∀ content, upstream = UpstreamOutcome.response false content →
          polishHandler description apiKey upstream
            = (⟨500, Body.errorMsg "Failed to polish description"⟩, true)) ∧
       (∀ content, upstream = UpstreamOutcome.response true content →
          polishHandler description apiKey upstream
            = (⟨200, Body.polishedBody (jsTrim content)⟩, true)))) := by
  refine ⟨?_, ?_, ?_⟩
  · rintro (rfl | ⟨s, rfl, ht⟩)
    · simp [polishHandler, strFalsy]
    · simp [polishHandler, ht]
  · rintro s rfl ht hk
    have h2 : (jsTrim s == "") = false := beq_eq_false_iff_ne.mpr ht
    have hs : s ≠ "" := by
      intro hs0
      apply ht
      rw [hs0]
      rfl
    have h1 : (s == "") = false := beq_eq_false_iff_ne.mpr hs
    rcases hk with rfl | rfl
    · simp [polishHandler, strFalsy, h1, h2]
    · simp [polishHandler, strFalsy, h1, h2]
  · rintro s k rfl ht rfl hk2
    have h2 : (jsTrim s == "") = false := beq_eq_false_iff_ne.mpr ht
    have hs : s ≠ "" := by
      intro hs0
      apply ht
      rw [hs0]
      rfl
    have h1 : (s == "") = false := beq_eq_false_iff_ne.mpr hs
    have h3 : (k == "") = false := beq_eq_false_iff_ne.mpr hk2
    refine ⟨?_, ?_, ?_⟩ <;> rintro x rfl <;>
      simp [polishHandler, strFalsy, h1, h2, h3]

/-- C6 witness: the contract applied at a whitespace-only description
(400, no upstream call) and at a successful upstream rewrite whose text
is propagated with its surrounding whitespace trimmed. -/
theorem polish_contract_witness :
    polishHandler (some "   ") (some "key") (UpstreamOutcome.response true "text")
      = (⟨400, Body.errorMsg "Description is required"⟩, false) ∧
    polishHandler (some "Great stuff") (some "key")
        (UpstreamOutcome.response true " polished text ")
      = (⟨200, Body.polishedBody "polished text"⟩, true) :=
  ⟨(polish_contract (some "   ") (some "key")
      (UpstreamOutcome.response true "text")).1 (Or.inr ⟨"   ", rfl, by decide⟩),
   (((polish_contract (some "Great stuff") (some "key")
        (UpstreamOutcome.response true " polished text ")).2.2 "Great stuff" "key"
        rfl (by decide) rfl (by decide)).2.2 " polished text " rfl).trans (by decide)⟩

/-! ## C10 — the inserted row of POST /cards -/

lemma submitAfterCover_row_fields (req : SubmitRequest)
    (up : Nat → Except String String) (insertRes : Except String Card)
    (coverUrl : Option String) (k : Nat) (row : InsertRow)
    (hrow : row ∈ (submitAfterCover req up insertRes coverUrl k).2.2) :
    row.business_name = req.businessName.getD "" ∧
    row.employee_name = req.employeeName.getD "" ∧
    row.description = req.description.getD "" ∧
    row.webpage_url = (match req.webpageUrl with
      | none => none
      | some s => if s = "" then none else some s) ∧
    row.cover_image_url = coverUrl := by
  unfold submitAfterCover at hrow
  rcases hu : uploadAll up k req.productImages with ⟨res, n⟩
  rw [hu] at hrow
  rcases res with e | urls
  · simp at hrow
  · rcases insertRes with e | c
    · simp at hrow
      subst hrow
      exact ⟨rfl, rfl, rfl, rfl, rfl⟩
    · simp at hrow
      subst hrow
      exact ⟨rfl, rfl, rfl, rfl, rfl⟩

lemma row_fields_conclusion (req : SubmitRequest) (row : InsertRow)
    (hb : strFalsy req.businessName = false)
    (he : strFalsy req.employeeName = false)
    (hd2 : strFalsy req.description = false)
    (hf1 : row.business_name = req.businessName.getD "")
    (hf2 : row.employee_name = req.employeeName.getD "")
    (hf3 : row.description = req.description.getD "")
    (hf4 : row.webpage_url = (match req.webpageUrl with
      | none => none
      | some s => if s = "" then none else some s)) :
    ((req.webpageUrl = none ∨ req.webpageUrl = some "") → row.webpage_url = none) ∧
    (∀ s, req.webpageUrl = some s → s ≠ "" → row.webpage_url = some s) ∧
    req.businessName = some row.business_name ∧
    req.employeeName = some row.employee_name ∧
    req.description = some row.description := by
  refine ⟨?_, ?_, ?_, ?_, ?_⟩
  · rintro (hw | hw) <;> simp [hf4, hw]
  · intro s hw hs
    simp [hf4, hw, hs]
  · rcases hbn : req.businessName with _ | bs
    · rw [hbn] at hb
      simp [strFalsy] at hb
    · rw [hbn] at hf1
      simp at hf1
      rw [hf1]
  · rcases hen : req.employeeName with _ | es
    · rw [hen] at he
      simp [strFalsy] at he
    · rw [hen] at hf2
      simp at hf2
      rw [hf2]
  · rcases hdn : req.description with _ | ds
    · rw [hdn] at hd2
      simp [strFalsy] at hd2
    · rw [hdn] at hf3
      simp at hf3
      rw [hf3]

/-- C10: every row the POST /cards handler passes to the insert call has
webpage_url equal to null whenever webpageUrl was absent or the empty
string (the empty string is coerced to null, never stored), equal to the
submitted value otherwise, and carries the three required text fields
exactly as submitted. -/
theorem submit_insert_row_fields (req : SubmitRequest)
    (up : Nat → Except String String) (insertRes : Except String Card)
    (row : InsertRow) (hrow : row ∈ (submitHandler req up insertRes).2.2) :
    ((req.webpageUrl = none ∨ req.webpageUrl = some "") → row.webpage_url = none) ∧
    (∀ s, req.webpageUrl = some s → s ≠ "" → row.webpage_url = some s) ∧
    req.businessName = some row.business_name ∧
    req.employeeName = some row.employee_name ∧
    req.description = some row.description := by
  by_cases hv : (strFalsy req.businessName || strFalsy req.employeeName ||
      strFalsy req.description) = true
  · exfalso
    simp [submitHandler, hv] at hrow
  · simp only [Bool.or_eq_true, not_or, Bool.not_eq_true] at hv
    obtain ⟨⟨hb, he⟩, hd2⟩ := hv
    have hvc : (strFalsy req.businessName || strFalsy req.employeeName ||
        strFalsy req.description) = false := by
      rw [hb, he, hd2]
      rfl
    simp only [submitHandler, hvc, Bool.false_eq_true, if_false] at hrow
    rcases hcov : req.coverImage with _ | f
    · rw [hcov] at hrow
      obtain ⟨hf1, hf2, hf3, hf4, _⟩ :=
        submitAfterCover_row_fields req up insertRes none 0 row hrow
      exact row_fields_conclusion req row hb he hd2 hf1 hf2 hf3 hf4
    · rw [hcov] at hrow
      rcases hup : up 0 with e | u
      · rw [hup] at hrow
        simp at hrow
      · rw [hup] at hrow
        obtain ⟨hf1, hf2, hf3, hf4, _⟩ :=
          submitAfterCover_row_fields req up insertRes (some u) 1 row hrow
        exact row_fields_conclusion req row hb he hd2 hf1 hf2 hf3 hf4

/-- C10 witness: a fileless submission with webpageUrl set to the empty
string — the single inserted row carries webpage_url null and the text
fields as submitted. -/
theorem submit_insert_row_fields_witness :
    ({ business_name := "Acme", employee_name := "Jo", webpage_url := none,
       description := "Great stuff", cover_image_url := none,
       product_image_urls := [] } : InsertRow).webpage_url = none ∧
    (some "Acme" : Option String) = some ("Acme" : String) :=
  have h := submit_insert_row_fields
    ⟨some "Acme", some "Jo", some "", some "Great stuff", none, []⟩
    (fun _ => Except.error "no upload")
    (Except.ok ⟨1, "Acme", "Jo", none, "Great stuff", none, some [], 0, 100⟩)
    { business_name := "Acme", employee_name := "Jo", webpage_url := none,
      description := "Great stuff", cover_image_url := none,
      product_image_urls := [] }
    (by decide)
  ⟨h.1 (Or.inr rfl), h.2.2.1⟩

/-! ## C8 — upload constraints -/

/-- C8: the multer fileFilter accepts exactly the MIME types image/jpeg,
image/jpg and image/png, compared case-insensitively (acceptance depends
only on the lowercased type); an accepted file is at most ten mebibytes;
a request with more than ten product images is rejected in middleware
with zero uploads and zero inserts; and so is a request carrying any
file of another type, before it can reach the handler. -/
theorem upload_constraints (mt : String) (f : UpFile) (req : SubmitRequest)
    (up : Nat → Except String String) (insertRes : Except String Card) :
    (fileFilterAccepts mt = true ↔
      (lowerString mt = "image/jpeg" ∨ lowerString mt = "image/jpg" ∨
       lowerString mt = "image/png")) ∧
    (∀ mt2 : String, lowerString mt = lowerString mt2 →
      fileFilterAccepts mt = fileFilterAccepts mt2) ∧
    (multerAcceptsFile f = true → f.size ≤ 10 * 1024 * 1024) ∧
    (req.productImages.length > 10 →
      cardsRoute req up insertRes = (RouteOutcome.middlewareRejected, 0, [])) ∧
    (∀ g ∈ req.productImages, multerAcceptsFile g = false →
      cardsRoute req up insertRes = (RouteOutcome.middlewareRejected, 0, [])) := by
  refine ⟨?_, ?_, ?_, ?_, ?_⟩
  · simp [fileFilterAccepts, allowedMimeTypes]
  · intro mt2 hlow
    unfold fileFilterAccepts
    rw [hlow]
  · intro hacc
    simp [multerAcceptsFile, fileSizeLimit] at hacc
    exact hacc.2
  · intro hlen
    have hc : req.productImages.length > productImagesMaxCount ∨
        ¬ ((req.coverImage.toList ++ req.productImages).all multerAcceptsFile = true) :=
      Or.inl hlen
    unfold cardsRoute
    rw [if_pos hc]
  · intro g hg hbad
    have hc : req.productImages.length > productImagesMaxCount ∨
        ¬ ((req.coverImage.toList ++ req.productImages).all multerAcceptsFile = true) := by
      refine Or.inr ?_
      intro hall
      rw [List.all_eq_true] at hall
      have hgt := hall g (List.mem_append.mpr (Or.inr hg))
      rw [hbad] at hgt
      exact Bool.false_ne_true hgt
    unfold cardsRoute
    rw [if_pos hc]

/-- C8 witness: the contract applied at an uppercase PNG type (accepted
case-insensitively) and at a request with eleven product images
(rejected in middleware with zero uploads and zero inserts). -/
theorem upload_constraints_witness :
    fileFilterAccepts "IMAGE/PNG" = true ∧
    cardsRoute
        ⟨some "Acme", some "Jo", none, some "d", none,
          List.replicate 11 ⟨"image/png", 5⟩⟩
        (fun _ => Except.error "x") (Except.error "x")
      = (RouteOutcome.middlewareRejected, 0, []) :=
  ⟨(upload_constraints "IMAGE/PNG" ⟨"image/png", 5⟩
        ⟨some "Acme", some "Jo", none, some "d", none,
          List.replicate 11 ⟨"image/png", 5⟩⟩
        (fun _ => Except.error "x") (Except.error "x")).1.mpr
      (Or.inr (Or.inr (by decide))),
   (upload_constraints "IMAGE/PNG" ⟨"image/png", 5⟩
        ⟨some "Acme", some "Jo", none, some "d", none,
          List.replicate 11 ⟨"image/png", 5⟩⟩
        (fun _ => Except.error "x") (Except.error "x")).2.2.2.1 (by decide)⟩

end SideQuest
